import Mathlib

/-!
Shallow embedding of the Basic-App repository (a FastAPI demonstration
collection) for checking its natural-language specification.

Components embedded here, following the source files:
- src/test_app/api.py          : the core demonstration service
- src/test_app/users.py        : the user and error-handling module
- src/test_app/dependencies.py : the dependency-injection module

Python dictionaries become association lists, handlers become pure
functions, raised exceptions become Except error values, and the decimal
literals of the fixtures are modelled as exact rationals.  Responses are
modelled as ordered field lists so that statements about which keys a
response contains are expressible.
-/

namespace BasicApp

/-- Pydantic model Image of api.py; its HttpUrl field is the validated
URL text. -/
structure ImageObj where
  name : String
  url : String
deriving DecidableEq

/-- JSON-like value appearing in the responses of the embedded
handlers. -/
inductive JValue where
  | null
  | str (s : String)
  | int (n : Int)
  | num (q : Rat)
  | strList (xs : List String)
  | images (xs : List ImageObj)
deriving DecidableEq

/-- Response body: an ordered list of named fields, as serialized. -/
abbrev Fields := List (String × JValue)

/-- Embedding of fastapi.HTTPException: a status code plus a detail
message. -/
structure HTTPErr where
  status_code : Nat
  detail : String
deriving DecidableEq

/-- First-match lookup in an association list, the embedding of a Python
dict read (Python dict keys are unique, so first match is the match). -/
def alookup {β : Type} (m : List (String × β)) (k : String) : Option β :=
  match m with
  | [] => none
  | (k2, v) :: rest => if k2 = k then some v else alookup rest k

/-- Keys of an association list. -/
def akeys {β : Type} (m : List (String × β)) : List String :=
  m.map Prod.fst

/-- Serialization of an optional string field (None becomes null). -/
def jOptStr : Option String → JValue
  | none => JValue.null
  | some s => JValue.str s

/-- Embedding of the Python method str.startswith, computed structurally
on the character lists so that concrete instances evaluate. -/
def py_startswith (s pre : String) : Bool :=
  pre.toList.isPrefixOf s.toList

/-- Normalization of one Python slice index against a list length:
negative indices count from the end, and both directions clamp into
the interval from 0 to the length. -/
def pySliceIdx (len : Nat) (i : Int) : Nat :=
  if i < 0 then (i + len).toNat else min i.toNat len

/-- Embedding of the Python slice xs[a:b] for integer bounds. -/
def pySlice {α : Type} (xs : List α) (a b : Int) : List α :=
  (xs.take (pySliceIdx xs.length b)).drop (pySliceIdx xs.length a)

/-- Outcome of serving one request: a successful JSON body, a raised
HTTPException rendered at its status code, an uncaught Python KeyError
(a server error, not an HTTP client response), or a rejection of the
request by the binding runtime before the handler runs. -/
inductive RouteOutcome where
  | ok (body : Fields)
  | httpError (e : HTTPErr)
  | keyError (key : String)
  | validationError
deriving DecidableEq

/-- Modelled from the spec: the external routing runtime (not part of
this repository) keeps a single authoritative routing table keyed by
(method, path) in which, among multiple same-path handler declarations,
only the last registered wins.  Registrations are listed in source
order, so lookup returns the last registration carrying the key. -/
def routeLookup {α : Type} (regs : List ((String × String) × α))
    (key : String × String) : Option α :=
  ((regs.filter (fun r => decide (r.1 = key))).getLast?).map Prod.snd

/-- Accumulator pass over decimal digits; any non-digit character
rejects the whole string. -/
def parseDigitsAux : List Char → Nat → Option Nat
  | [], acc => some acc
  | c :: cs, acc =>
    if c.isDigit then parseDigitsAux cs (acc * 10 + (c.toNat - 48)) else none

/-- Modelled from the spec: the external binding runtime converts an
integer-typed path parameter from its decimal text before the handler
runs, rejecting the request when the text is not an integer. -/
def py_parse_int (s : String) : Option Int :=
  match s.toList with
  | [] => none
  | '-' :: rest =>
    match rest with
    | [] => none
    | _ => (parseDigitsAux rest 0).map (fun n => -(n : Int))
  | cs => (parseDigitsAux cs 0).map (fun n => (n : Int))

namespace Api

/-- Pydantic model UserIn of api.py.  The email field is the string
accepted by the EmailStr validator; validity of the address is enforced
by the runtime before the handler runs and plays no role here. -/
structure UserIn where
  username : String
  password : String
  email : String
  full_name : Option String
deriving DecidableEq

/-- Pydantic model UserOut of api.py: no password field of any kind. -/
structure UserOut where
  username : String
  email : String
  full_name : Option String
deriving DecidableEq

/-- Pydantic model UserInDB of api.py. -/
structure UserInDB where
  username : String
  hashed_password : String
  email : String
  full_name : Option String
deriving DecidableEq

/-- Function fake_password_hasher of api.py. -/
def fake_password_hasher (raw_password : String) : String :=
  "supersecret" ++ raw_password

/-- Function fake_save_user of api.py: builds a UserInDB from the
UserIn fields plus the hashed password. -/
def fake_save_user (user_in : UserIn) : UserInDB :=
  { username := user_in.username
    hashed_password := fake_password_hasher user_in.password
    email := user_in.email
    full_name := user_in.full_name }

/-- Validation of an arbitrary value against the UserOut response model,
as the runtime performs it for response_model=UserOut: each declared
field of UserOut is read off the handler result, every other field is
dropped.  Applied here to the UserInDB the handler returns. -/
def toUserOut (u : UserInDB) : UserOut :=
  { username := u.username, email := u.email, full_name := u.full_name }

/-- Serialization of a UserOut value: exactly the three declared
fields, in declaration order. -/
def serializeUserOut (u : UserOut) : Fields :=
  [("username", JValue.str u.username),
   ("email", JValue.str u.email),
   ("full_name", jOptStr u.full_name)]

/-- Route POST /user/ of api.py (the last registered declaration, line
564): the handler saves the user and returns the UserInDB, which the
declared response_model=UserOut reduces to UserOut fields on the way
out. -/
def create_user (user_in : UserIn) : Fields :=
  serializeUserOut (toUserOut (fake_save_user user_in))

/-- Fixture data of api.py: the catalog mapping isbn- and imdb-
identifiers to titles. -/
def data : List (String × String) :=
  [("isbn-9781529046137", "The Hitchhiker's Guide to the Galaxy"),
   ("imdb-tt0371724", "The Hitchhiker's Guide to the Galaxy"),
   ("isbn-9781439512982", "Isaac Asimov: The Complete Stories, Vol. 2")]

/-- ValueError message of check_valid_id in api.py. -/
def invalid_id_message : String :=
  "Invalid ID format, it must start with \"isbn-\" or \"imdb-\""

/-- Function check_valid_id of api.py: raises ValueError unless the id
starts with isbn- or imdb-.  The error value carries the ValueError
message. -/
def check_valid_id (ids : String) : Except String String :=
  if ¬ (py_startswith ids "isbn-" || py_startswith ids "imdb-") then
    Except.error invalid_id_message
  else
    Except.ok ids

/-- Handler body of GET /items8/ in api.py.  When ids is supplied the
catalog is read with a defaulting get (absent key yields null); when
ids is omitted a random catalog entry is chosen — the nondeterministic
choice is modelled by the extra randomPick index. -/
def read_items8_body (ids : Option String) (randomPick : Nat) : Fields :=
  match ids with
  | some i => [("id", JValue.str i), ("name", jOptStr (alookup data i))]
  | none =>
    let entry := data.getD (randomPick % data.length) ("", "")
    [("id", JValue.str entry.1), ("name", JValue.str entry.2)]

/-- Modelled from the spec: the validation runtime of GET /items8/ runs
the AfterValidator check_valid_id on a supplied ids value before the
handler body, and a failed catalog-ID prefix check surfaces as an
InvalidInput client error with status 400 carrying the ValueError
message (spec section 7 classifies the failed prefix check as
InvalidInput with status 400); an omitted ids skips the validator. -/
def read_items8_route (ids : Option String) (randomPick : Nat) :
    Except HTTPErr Fields :=
  match ids with
  | none => Except.ok (read_items8_body none randomPick)
  | some i =>
    match check_valid_id i with
    | Except.error msg => Except.error { status_code := 400, detail := msg }
    | Except.ok v => Except.ok (read_items8_body (some v) randomPick)

/-- Fixture fake_items_db of api.py: three item-name records. -/
def fake_items_db : List Fields :=
  [[("item_name", JValue.str "Foo")],
   [("item_name", JValue.str "Bar")],
   [("item_name", JValue.str "Baz")]]

/-- Handler read_items of GET /items/ in api.py: returns
fake_items_db[skip : limit].  The parameter defaults in the source are
skip = 0 and limit = 10. -/
def read_items (skip limit : Int) : List Fields :=
  pySlice fake_items_db skip limit

/-- Response of PUT /items9/{item_id} in api.py.  Timestamps and the
duration are modelled as integers (an exact epoch offset), the
time-of-day repeat_at as an optional integer, and the UUID path
parameter as a string. -/
structure Items9Response where
  item_id : String
  start_datetime : Int
  end_datetime : Int
  process_after : Int
  repeat_at : Option Int
  start_process : Int
  duration : Int
deriving DecidableEq

/-- Handler update_items9 of PUT /items9/{item_id} in api.py: computes
start_process = start_datetime + process_after and
duration = end_datetime - start_process, and returns all inputs plus
the two derived values. -/
def update_items9 (item_id : String) (start_datetime end_datetime : Int)
    (process_after : Int) (repeat_at : Option Int) : Items9Response :=
  let start_process := start_datetime + process_after
  let duration := end_datetime - start_process
  { item_id := item_id
    start_datetime := start_datetime
    end_datetime := end_datetime
    process_after := process_after
    repeat_at := repeat_at
    start_process := start_process
    duration := duration }

/-- Pydantic model Item of api.py.  Decimal literals are modelled as
exact rationals; the defaults are description = None, tax = None,
tags = [] and image = None. -/
structure Item where
  name : String
  description : Option String
  price : Rat
  tax : Option Rat
  tags : List String
  image : Option (List ImageObj)
deriving DecidableEq

/-- Fixture items of api.py (the keys foo, bar, baz), validated against
the Item model: fields absent from the raw dicts take the model
defaults. -/
def items : List (String × Item) :=
  [("foo", Item.mk "Foo" none (50.2 : Rat) none [] none),
   ("bar", Item.mk "Bar" (some "The Bar fighters") (62 : Rat)
     (some (20.2 : Rat)) [] none),
   ("baz", Item.mk "Baz" (some "There goes my baz") (50.2 : Rat)
     (some (10.5 : Rat)) [] none)]

/-- Serialization under response_model_include of name and description
of GET /items/{item_id}/name. -/
def serializeItemNameDesc (it : Item) : Fields :=
  [("name", JValue.str it.name), ("description", jOptStr it.description)]

/-- Serialization under response_model_exclude of tax of
GET /items/{item_id}/public: every Item field except tax. -/
def serializeItemPublic (it : Item) : Fields :=
  [("name", JValue.str it.name),
   ("description", jOptStr it.description),
   ("price", JValue.num it.price),
   ("tags", JValue.strList it.tags),
   ("image", match it.image with
             | none => JValue.null
             | some xs => JValue.images xs)]

/-- Handler read_item_name of GET /items/{item_id}/name in api.py: the
body indexes the items fixture directly, with no membership check, so
an absent key raises an uncaught KeyError. -/
def read_item_name (item_id : String) : RouteOutcome :=
  match alookup items item_id with
  | none => RouteOutcome.keyError item_id
  | some it => RouteOutcome.ok (serializeItemNameDesc it)

/-- Handler read_item_public_data of GET /items/{item_id}/public in
api.py: same unchecked fixture indexing. -/
def read_item_public_data (item_id : String) : RouteOutcome :=
  match alookup items item_id with
  | none => RouteOutcome.keyError item_id
  | some it => RouteOutcome.ok (serializeItemPublic it)

/-- Registration list of api.py in source order: the (method, path)
keys with a tag naming the handler.  Repeated declarations for one key
keep their source order; the _v1 and _v2 suffixes number them. -/
def api_registrations : List ((String × String) × String) :=
  [(("GET", "/"), "root"),
   (("GET", "/hello"), "hello"),
   (("GET", "/hello/{name}"), "hello_name"),
   (("GET", "/users/{user_id}/items/{item_id}"), "read_user_item"),
   (("GET", "/items/"), "read_items"),
   (("GET", "/users/{user_id}/items13/{item_id}"), "read_item13"),
   (("GET", "/items2/"), "read_items2"),
   (("GET", "/items3/"), "read_items3"),
   (("GET", "/items4/"), "read_items4"),
   (("GET", "/items5/"), "read_items5"),
   (("GET", "/models/{model_name}"), "get_model"),
   (("GET", "/files/{file_path:path}"), "read_file"),
   (("POST", "/items/"), "create_item"),
   (("GET", "/items6/"), "read_items6"),
   (("GET", "/items7/"), "read_items7"),
   (("GET", "/items8/"), "read_items8"),
   (("GET", "/items9/{item_id}"), "read_items9"),
   (("GET", "/items10/{item_id}"), "read_items10"),
   (("GET", "/items11/{item_id}"), "read_items11"),
   (("GET", "/items12/"), "read_items12"),
   (("PUT", "/items1/{item_id}"), "update_item1"),
   (("PUT", "/items/{item_id}"), "update_item"),
   (("PUT", "/items3/{item_id}"), "update_item3"),
   (("PUT", "/items4/{item_id}"), "update_item4"),
   (("PUT", "/items5/{item_id}"), "update_item5"),
   (("PUT", "/items6/{item_id}"), "update_item6"),
   (("PUT", "/items7/{item_id}"), "update_item7"),
   (("PUT", "/items8/{item_id}"), "update_item8"),
   (("PUT", "/items9/{item_id}"), "update_items9"),
   (("GET", "/items/"), "cookie_items"),
   (("GET", "/items/"), "header_items"),
   (("GET", "/items2/"), "cookie_items2"),
   (("GET", "/items2/"), "headers_items"),
   (("GET", "/items15/"), "fine_items_v1"),
   (("GET", "/items16/"), "fine_items_v2"),
   (("POST", "/user/"), "create_user_v1"),
   (("GET", "/portal"), "get_portal_v1"),
   (("GET", "/portal"), "get_portal_v2"),
   (("GET", "/items/{item_id}/name"), "read_item_name"),
   (("GET", "/items/{item_id}/public"), "read_item_public_data"),
   (("POST", "/user/"), "create_user_v2")]

end Api

namespace Users

/-- Pydantic models UserBase/UserIn of users.py.  UserIn extends
UserBase with a password; the inheritance is flattened here. -/
structure UserIn where
  username : String
  email : String
  full_name : Option String
  password : String
deriving DecidableEq

/-- Pydantic model UserOut of users.py: identical to UserBase, so no
password field of any kind. -/
structure UserOut where
  username : String
  email : String
  full_name : Option String
deriving DecidableEq

/-- Pydantic model UserInDB of users.py: UserBase plus
hashed_password. -/
structure UserInDB where
  username : String
  email : String
  full_name : Option String
  hashed_password : String
deriving DecidableEq

/-- Function fake_password_hasher of users.py. -/
def fake_password_hasher (raw_password : String) : String :=
  "supersecret" ++ raw_password

/-- Function fake_save_user of users.py. -/
def fake_save_user (user_in : UserIn) : UserInDB :=
  { username := user_in.username
    email := user_in.email
    full_name := user_in.full_name
    hashed_password := fake_password_hasher user_in.password }

/-- Validation against response_model=UserOut of POST /user/ in
users.py: the declared UserOut fields are read off the returned
UserInDB, everything else is dropped. -/
def toUserOut (u : UserInDB) : UserOut :=
  { username := u.username, email := u.email, full_name := u.full_name }

/-- Serialization of a UserOut value of users.py: exactly the three
UserBase fields, in declaration order. -/
def serializeUserOut (u : UserOut) : Fields :=
  [("username", JValue.str u.username),
   ("email", JValue.str u.email),
   ("full_name", jOptStr u.full_name)]

/-- Route POST /user/ of users.py (line 89): saves the user, returns
the UserInDB, and the response_model=UserOut contract shapes the
output. -/
def create_user (user_in : UserIn) : Fields :=
  serializeUserOut (toUserOut (fake_save_user user_in))

/-- Fixture items2 of users.py: the simple name-to-title mapping. -/
def items2 : List (String × String) :=
  [("foo", "The Foo Wrestlers")]

/-- Record of the vehicle item family of users.py (BaseItem with the
discriminating type field; PlaneItem adds size). -/
structure VehicleRec where
  description : String
  type : String
  size : Option Nat
deriving DecidableEq

/-- Fixture items of users.py: the car/plane records. -/
def items : List (String × VehicleRec) :=
  [("item1", VehicleRec.mk "All my friends drive a low rider" "car" none),
   ("item2", VehicleRec.mk "Music is my aeroplane, it's my aeroplane"
     "plane" (some 5))]

/-- Serialization of a vehicle record under the declared union
PlaneItem or CarItem, discriminated by the presence of size. -/
def serializeVehicle (v : VehicleRec) : Fields :=
  match v.size with
  | none => [("description", JValue.str v.description),
             ("type", JValue.str v.type)]
  | some n => [("description", JValue.str v.description),
               ("type", JValue.str v.type),
               ("size", JValue.int n)]

/-- First declaration of GET /items/{item_id} in users.py (line 77):
string path parameter checked against items2, 404 when absent. -/
def read_item_first (item_id : String) : RouteOutcome :=
  match alookup items2 item_id with
  | none => RouteOutcome.httpError (HTTPErr.mk 404 "Item not found")
  | some title => RouteOutcome.ok [("item", JValue.str title)]

/-- Second declaration of GET /items/{item_id} in users.py (line 84):
unchecked indexing into the vehicle fixture, union response model. -/
def read_item_second (item_id : String) : RouteOutcome :=
  match alookup items item_id with
  | none => RouteOutcome.keyError item_id
  | some v => RouteOutcome.ok (serializeVehicle v)

/-- Final declaration of GET /items/{item_id} in users.py (line 182):
integer path parameter, 418 for item_id equal to 3.  The integer
conversion of the raw path segment is the binding runtime's. -/
def read_item_final (raw : String) : RouteOutcome :=
  match py_parse_int raw with
  | none => RouteOutcome.validationError
  | some n =>
    if n = 3 then RouteOutcome.httpError (HTTPErr.mk 418 "Nope! I don't like 3.")
    else RouteOutcome.ok [("item_id", JValue.int n)]

/-- Registration list of users.py in source order. -/
def users_registrations : List ((String × String) × String) :=
  [(("GET", "/items/{item_id}"), "read_item_first"),
   (("GET", "/items/{item_id}"), "read_item_second"),
   (("POST", "/user/"), "create_user"),
   (("GET", "/keyword-weights/"), "read_keyword_weights"),
   (("POST", "/login/"), "login"),
   (("POST", "/login2/"), "login2"),
   (("POST", "/files/"), "create_files"),
   (("POST", "/uploadfiles/"), "create_upload_files"),
   (("GET", "/"), "main"),
   (("GET", "/items-header/{item_id}"), "read_item_header"),
   (("GET", "/unicorns/{name}"), "read_unicorn"),
   (("GET", "/items/{item_id}"), "read_item_final")]

/-- Semantics of the three same-path declarations: the handler bodies
keyed by their registration tags. -/
def users_item_handlers : List (String × (String → RouteOutcome)) :=
  [("read_item_first", read_item_first),
   ("read_item_second", read_item_second),
   ("read_item_final", read_item_final)]

/-- Serving a request to GET /items/{item_id} of users.py: dispatch
through the routing table (last registration wins) to the winning
handler, applied to the raw path segment. -/
def serve_users_item (raw : String) : RouteOutcome :=
  match routeLookup users_registrations ("GET", "/items/{item_id}") with
  | none => RouteOutcome.httpError (HTTPErr.mk 404 "Not Found")
  | some tag =>
    match alookup users_item_handlers tag with
    | none => RouteOutcome.httpError (HTTPErr.mk 404 "Not Found")
    | some h => h raw

/-- Exception type UnicornException of users.py. -/
structure UnicornException where
  name : String
deriving DecidableEq

/-- JSON response with an explicit status code, as produced by the
exception handlers of users.py. -/
structure JSONResp where
  status_code : Nat
  content : Fields
deriving DecidableEq

/-- Handler read_unicorn of GET /unicorns/{name} in users.py: raises
UnicornException for the name yolo, else returns the name. -/
def read_unicorn (name : String) : Except UnicornException Fields :=
  if name = "yolo" then Except.error (UnicornException.mk name)
  else Except.ok [("unicorn_name", JValue.str name)]

/-- Registered handler unicorn_exception_handler of users.py: renders
any UnicornException as a 418 JSON response with the fixed message. -/
def unicorn_exception_handler (exc : UnicornException) : JSONResp :=
  JSONResp.mk 418
    [("message", JValue.str
      ("Oops! " ++ exc.name ++ " did something. There goes a rainbow..."))]

/-- Application-level behavior of GET /unicorns/{name}: a raised
UnicornException is rendered by the registered dedicated handler, a
normal return is a 200 JSON response. -/
def unicorns_route (name : String) : JSONResp :=
  match read_unicorn name with
  | Except.error e => unicorn_exception_handler e
  | Except.ok body => JSONResp.mk 200 body

end Users

namespace Deps

/-- Dependency verify_token of dependencies.py: fails with 400 unless
the x-token header is the fixed secret; returns nothing on success. -/
def verify_token (x_token : String) : Except HTTPErr Unit :=
  if x_token ≠ "fake-super-secret-token" then
    Except.error (HTTPErr.mk 400 "X-Token header invalid")
  else Except.ok ()

/-- Dependency verify_key of dependencies.py: fails with 400 unless the
x-key header is the fixed secret; returns the validated key. -/
def verify_key (x_key : String) : Except HTTPErr String :=
  if x_key ≠ "fake-super-secret-key" then
    Except.error (HTTPErr.mk 400 "X-Key header invalid")
  else Except.ok x_key

/-- Gated route GET /items/ of dependencies.py (line 85): the listed
dependencies run before the handler, in order, and the first failure
short-circuits the request, so the body runs only when both gates
pass. -/
def read_items_gated (x_token x_key : String) : Except HTTPErr (List Fields) :=
  match verify_token x_token with
  | Except.error e => Except.error e
  | Except.ok _ =>
    match verify_key x_key with
    | Except.error e => Except.error e
    | Except.ok _ =>
      Except.ok [[("item", JValue.str "Foo")], [("item", JValue.str "Bar")]]

/-- Ownership record of the fixture data of dependencies.py. -/
structure OwnedItem where
  description : String
  owner : String
deriving DecidableEq

/-- Fixture data of dependencies.py: the ownership records. -/
def data : List (String × OwnedItem) :=
  [("plumbus", OwnedItem.mk "Freshly pickled plumbus" "Morty"),
   ("portal-gun", OwnedItem.mk "Gun to create portals" "Rick")]

/-- Serialization of a full ownership record. -/
def serializeOwnedItem (it : OwnedItem) : Fields :=
  [("description", JValue.str it.description),
   ("owner", JValue.str it.owner)]

/-- Outcome of the handler body of GET /items/{item_id} in
dependencies.py before the scoped provider's exit logic runs: a raised
OwnerError carries its payload out of the body. -/
inductive GetItemOutcome where
  | ok (body : Fields)
  | httpError (e : HTTPErr)
  | ownerError (payload : String)
deriving DecidableEq

/-- Handler get_item of GET /items/{item_id} in dependencies.py (line
117): 404 when the key is absent, OwnerError when the owner differs
from the resolved username (the source raises OwnerError(username)),
else the full record. -/
def get_item (item_id : String) (username : String) : GetItemOutcome :=
  match alookup data item_id with
  | none => GetItemOutcome.httpError (HTTPErr.mk 404 "Item not found")
  | some item =>
    if item.owner ≠ username then GetItemOutcome.ownerError username
    else GetItemOutcome.ok (serializeOwnedItem item)

/-- Scoped provider get_username of dependencies.py (line 110): yields
the fixed identity Rick to the body; on scope exit an OwnerError raised
in the body is translated into an HTTPException with status 400 whose
detail embeds the error payload, so an OwnerError never escapes the
scope. -/
def get_username_scope (body : String → GetItemOutcome) :
    Except HTTPErr Fields :=
  match body "Rick" with
  | GetItemOutcome.ok r => Except.ok r
  | GetItemOutcome.httpError e => Except.error e
  | GetItemOutcome.ownerError payload =>
    Except.error (HTTPErr.mk 400 ("Owner error: " ++ payload))

/-- Route GET /items/{item_id} of dependencies.py: the handler body run
inside the get_username scope. -/
def get_item_route (item_id : String) : Except HTTPErr Fields :=
  get_username_scope (get_item item_id)

end Deps

end BasicApp

-- ===================== THEOREMS =====================

namespace BasicApp

/-- C5: GET /items/ in the core service slices the fixture with limit as
the exclusive upper index, not a count: skip = 1, limit = 2 yields
exactly the single element fake_items_db[1:2], and the defaults
skip = 0, limit = 10 yield the whole three-element fixture. -/
theorem C5_read_items_slice_quirk :
    Api.read_items 1 2 = [[("item_name", JValue.str "Bar")]] ∧
    Api.read_items 0 10 = Api.fake_items_db ∧
    Api.fake_items_db.length = 3 := by
  refine ⟨?_, ?_, ?_⟩ <;> rfl

/-- C7: PUT /items9/{item_id} returns start_process equal to
start_datetime + process_after and duration equal to
end_datetime - start_process, and echoes the five supplied fields
unchanged. -/
theorem C7_update_items9_arithmetic (item_id : String)
    (start_datetime end_datetime process_after : Int)
    (repeat_at : Option Int) :
    (Api.update_items9 item_id start_datetime end_datetime process_after
        repeat_at).start_process = start_datetime + process_after ∧
    (Api.update_items9 item_id start_datetime end_datetime process_after
        repeat_at).duration =
      end_datetime - (Api.update_items9 item_id start_datetime end_datetime
        process_after repeat_at).start_process ∧
    (Api.update_items9 item_id start_datetime end_datetime process_after
        repeat_at).item_id = item_id ∧
    (Api.update_items9 item_id start_datetime end_datetime process_after
        repeat_at).start_datetime = start_datetime ∧
    (Api.update_items9 item_id start_datetime end_datetime process_after
        repeat_at).end_datetime = end_datetime ∧
    (Api.update_items9 item_id start_datetime end_datetime process_after
        repeat_at).process_after = process_after ∧
    (Api.update_items9 item_id start_datetime end_datetime process_after
        repeat_at).repeat_at = repeat_at := by
  refine ⟨rfl, rfl, rfl, rfl, rfl, rfl, rfl⟩

/-- C1: for every valid UserIn input, POST /user/ in the core service
and POST /user/ in the user module return exactly the UserOut-shaped
fields username, email, full_name; the response never contains a
password or hashed_password field, even though the intermediate
UserInDB built by the handler carries the hashed password. -/
theorem C1_user_out_never_leaks_password (u : Api.UserIn) (v : Users.UserIn) :
    akeys (Api.create_user u) = ["username", "email", "full_name"] ∧
    "password" ∉ akeys (Api.create_user u) ∧
    "hashed_password" ∉ akeys (Api.create_user u) ∧
    (Api.fake_save_user u).hashed_password = "supersecret" ++ u.password ∧
    akeys (Users.create_user v) = ["username", "email", "full_name"] ∧
    "password" ∉ akeys (Users.create_user v) ∧
    "hashed_password" ∉ akeys (Users.create_user v) ∧
    (Users.fake_save_user v).hashed_password = "supersecret" ++ v.password := by
  refine ⟨rfl, ?_, ?_, rfl, rfl, ?_, ?_, rfl⟩
  · exact (by decide : ("password" : String) ∉ ["username", "email", "full_name"])
  · exact (by decide : ("hashed_password" : String) ∉ ["username", "email", "full_name"])
  · exact (by decide : ("password" : String) ∉ ["username", "email", "full_name"])
  · exact (by decide : ("hashed_password" : String) ∉ ["username", "email", "full_name"])

/-- C3: a supplied ids query value of GET /items8/ that starts with
neither isbn- nor imdb- fails with status 400 and the ValueError
message of check_valid_id, for every random pick, so the handler body
never runs. -/
theorem C3_items8_invalid_prefix (ids : String) (randomPick : Nat)
    (h1 : py_startswith ids "isbn-" = false)
    (h2 : py_startswith ids "imdb-" = false) :
    Api.read_items8_route (some ids) randomPick =
      Except.error (HTTPErr.mk 400 Api.invalid_id_message) := by
  simp [Api.read_items8_route, Api.check_valid_id, h1, h2]

/-- Witness for C3 at the concrete input ids = foo-1. -/
theorem C3_items8_invalid_prefix_witness :
    Api.read_items8_route (some "foo-1") 0 =
      Except.error (HTTPErr.mk 400 Api.invalid_id_message) :=
  C3_items8_invalid_prefix "foo-1" 0 (by decide) (by decide)

/-- C10: a supplied ids value starting with isbn- or imdb- that is
absent from the catalog fixture does not fail: the defaulting get makes
GET /items8/ return the id with a null name. -/
theorem C10_items8_absent_key_defaults (ids : String) (randomPick : Nat)
    (hpre : py_startswith ids "isbn-" = true ∨ py_startswith ids "imdb-" = true)
    (habs : alookup Api.data ids = none) :
    Api.read_items8_route (some ids) randomPick =
      Except.ok [("id", JValue.str ids), ("name", JValue.null)] := by
  rcases hpre with h | h <;>
    simp [Api.read_items8_route, Api.check_valid_id, Api.read_items8_body,
      h, habs, jOptStr]

/-- Witness for C10 at the concrete input ids = isbn-0000. -/
theorem C10_items8_absent_key_defaults_witness :
    Api.read_items8_route (some "isbn-0000") 0 =
      Except.ok [("id", JValue.str "isbn-0000"), ("name", JValue.null)] :=
  C10_items8_absent_key_defaults "isbn-0000" 0 (Or.inl (by decide)) (by decide)

/-- Helper: a key absent from the key list of an association list has
no association. -/
theorem alookup_eq_none_of_not_mem_keys {β : Type} (k : String) :
    ∀ m : List (String × β), k ∉ akeys m → alookup m k = none := by
  intro m
  induction m with
  | nil => intro _; rfl
  | cons p rest ih =>
    intro h
    simp only [akeys, List.map_cons, List.mem_cons, not_or] at h
    obtain ⟨h1, h2⟩ := h
    have hne : p.1 ≠ k := fun he => h1 he.symm
    simp only [alookup, if_neg hne]
    exact ih h2

/-- C2: in the routing table keyed by (method, path) the last
registration wins — for the three GET /items/{item_id} declarations of
the user module and for the duplicate GET /portal and POST /user/
declarations of the core service — and every request to
GET /items/{item_id} of the user module is served by the final
integer-typed handler: 418 for item_id equal to 3, otherwise the
item_id echo, with a non-integer path segment rejected by the binding
runtime rather than reaching any earlier handler. -/
theorem C2_last_registration_wins (raw : String) (n : Int) :
    routeLookup Users.users_registrations ("GET", "/items/{item_id}")
      = some "read_item_final" ∧
    routeLookup Api.api_registrations ("GET", "/portal")
      = some "get_portal_v2" ∧
    routeLookup Api.api_registrations ("POST", "/user/")
      = some "create_user_v2" ∧
    (py_parse_int raw = some n →
      Users.serve_users_item raw =
        (if n = 3 then
          RouteOutcome.httpError (HTTPErr.mk 418 "Nope! I don't like 3.")
         else RouteOutcome.ok [("item_id", JValue.int n)])) ∧
    (py_parse_int raw = none →
      Users.serve_users_item raw = RouteOutcome.validationError) := by
  refine ⟨by decide, by decide, by decide, ?_, ?_⟩
  · intro h
    show Users.read_item_final raw = _
    simp [Users.read_item_final, h]
  · intro h
    show Users.read_item_final raw = _
    simp [Users.read_item_final, h]

/-- Witness for C2 at the concrete request with path segment 3. -/
theorem C2_last_registration_wins_witness :
    Users.serve_users_item "3" =
      RouteOutcome.httpError (HTTPErr.mk 418 "Nope! I don't like 3.") := by
  simpa using (C2_last_registration_wins "3" 3).2.2.2.1 (by decide)

/-- C4: for the ownership-checked GET /items/{item_id} route with the
resolved identity fixed to Rick: an absent key fails with 404, an owner
other than Rick makes the body raise OwnerError which the scoped
provider always translates into a 400 error embedding the payload (the
route result is an HTTP response, never an escaping OwnerError), and an
owner equal to Rick returns the full record; concretely plumbus gives
the 400 and portal-gun the full record. -/
theorem C4_ownership_route (item_id : String) :
    (alookup Deps.data item_id = none →
      Deps.get_item_route item_id =
        Except.error (HTTPErr.mk 404 "Item not found")) ∧
    (∀ it : Deps.OwnedItem, alookup Deps.data item_id = some it →
      it.owner ≠ "Rick" →
      Deps.get_item_route item_id =
        Except.error (HTTPErr.mk 400 "Owner error: Rick")) ∧
    (∀ it : Deps.OwnedItem, alookup Deps.data item_id = some it →
      it.owner = "Rick" →
      Deps.get_item_route item_id = Except.ok (Deps.serializeOwnedItem it)) ∧
    Deps.get_item_route "plumbus" =
      Except.error (HTTPErr.mk 400 "Owner error: Rick") ∧
    Deps.get_item_route "portal-gun" =
      Except.ok [("description", JValue.str "Gun to create portals"),
                 ("owner", JValue.str "Rick")] ∧
    (Deps.get_item_route item_id =
        Except.error (HTTPErr.mk 404 "Item not found") ∨
     Deps.get_item_route item_id =
        Except.error (HTTPErr.mk 400 "Owner error: Rick") ∨
     ∃ body, Deps.get_item_route item_id = Except.ok body) := by
  refine ⟨?_, ?_, ?_, rfl, rfl, ?_⟩
  · intro h
    simp [Deps.get_item_route, Deps.get_username_scope, Deps.get_item, h]
  · intro it h howner
    simp [Deps.get_item_route, Deps.get_username_scope, Deps.get_item,
      h, howner]
  · intro it h howner
    simp [Deps.get_item_route, Deps.get_username_scope, Deps.get_item,
      h, howner]
  · rcases hcase : alookup Deps.data item_id with _ | it
    · left
      simp [Deps.get_item_route, Deps.get_username_scope, Deps.get_item,
        hcase]
    · by_cases ho : it.owner = "Rick"
      · right; right
        refine ⟨Deps.serializeOwnedItem it, ?_⟩
        simp [Deps.get_item_route, Deps.get_username_scope, Deps.get_item,
          hcase, ho]
      · right; left
        simp [Deps.get_item_route, Deps.get_username_scope, Deps.get_item,
          hcase, ho]

/-- Witness for C4 at the concrete absent key cronenberg. -/
theorem C4_ownership_route_witness :
    Deps.get_item_route "cronenberg" =
      Except.error (HTTPErr.mk 404 "Item not found") :=
  (C4_ownership_route "cronenberg").1 (by decide)

/-- C6: verify_token fails with 400 X-Token header invalid exactly when
the x-token header differs from the fixed secret (and returns nothing
on success); verify_key analogously for x-key, returning the validated
key on success; and the gated GET /items/ route short-circuits on any
gate failure so its body runs only when both headers match. -/
theorem C6_header_gates (x_token x_key : String) :
    (Deps.verify_token x_token =
        Except.error (HTTPErr.mk 400 "X-Token header invalid")
      ↔ x_token ≠ "fake-super-secret-token") ∧
    (x_token = "fake-super-secret-token" →
      Deps.verify_token x_token = Except.ok ()) ∧
    (Deps.verify_key x_key =
        Except.error (HTTPErr.mk 400 "X-Key header invalid")
      ↔ x_key ≠ "fake-super-secret-key") ∧
    (x_key = "fake-super-secret-key" →
      Deps.verify_key x_key = Except.ok x_key) ∧
    (x_token ≠ "fake-super-secret-token" →
      Deps.read_items_gated x_token x_key =
        Except.error (HTTPErr.mk 400 "X-Token header invalid")) ∧
    (x_token = "fake-super-secret-token" →
      x_key ≠ "fake-super-secret-key" →
      Deps.read_items_gated x_token x_key =
        Except.error (HTTPErr.mk 400 "X-Key header invalid")) ∧
    (x_token = "fake-super-secret-token" →
      x_key = "fake-super-secret-key" →
      Deps.read_items_gated x_token x_key =
        Except.ok [[("item", JValue.str "Foo")],
                   [("item", JValue.str "Bar")]]) := by
  by_cases ht : x_token = "fake-super-secret-token" <;>
    by_cases hk : x_key = "fake-super-secret-key" <;>
    simp [Deps.verify_token, Deps.verify_key, Deps.read_items_gated, ht, hk]

/-- Witness for C6: a wrong token with a correct key fails with the
X-Token error. -/
theorem C6_header_gates_witness :
    Deps.read_items_gated "wrong" "fake-super-secret-key" =
      Except.error (HTTPErr.mk 400 "X-Token header invalid") :=
  (C6_header_gates "wrong" "fake-super-secret-key").2.2.2.2.1 (by decide)

/-- C8: GET /unicorns/{name} returns the dedicated 418 teapot response
with the fixed message exactly when the name is yolo, and otherwise the
200 unicorn_name echo. -/
theorem C8_unicorn_teapot (name : String) :
    (Users.unicorns_route name =
        Users.JSONResp.mk 418
          [("message", JValue.str
            "Oops! yolo did something. There goes a rainbow...")]
      ↔ name = "yolo") ∧
    (name ≠ "yolo" →
      Users.unicorns_route name =
        Users.JSONResp.mk 200 [("unicorn_name", JValue.str name)]) := by
  by_cases h : name = "yolo"
  · subst h
    exact ⟨⟨fun _ => rfl, fun _ => rfl⟩, fun hne => absurd rfl hne⟩
  · have hroute : Users.unicorns_route name =
        Users.JSONResp.mk 200 [("unicorn_name", JValue.str name)] := by
      simp [Users.unicorns_route, Users.read_unicorn, h]
    refine ⟨⟨fun habs => ?_, fun he => absurd he h⟩, fun _ => hroute⟩
    rw [hroute] at habs
    simp at habs

/-- Witness for C8 at the concrete names yolo and grumbo. -/
theorem C8_unicorn_teapot_witness :
    Users.unicorns_route "yolo" =
      Users.JSONResp.mk 418
        [("message", JValue.str
          "Oops! yolo did something. There goes a rainbow...")] ∧
    Users.unicorns_route "grumbo" =
      Users.JSONResp.mk 200 [("unicorn_name", JValue.str "grumbo")] :=
  ⟨(C8_unicorn_teapot "yolo").1.mpr rfl,
   (C8_unicorn_teapot "grumbo").2 (by decide)⟩

/-- C9: for every item_id outside the three fixture keys foo, bar and
baz, the handlers of GET /items/{item_id}/name and
GET /items/{item_id}/public index the fixture without a membership
check, so the request ends in an uncaught KeyError — a server error —
and in particular not in any HTTPException such as a 404. -/
theorem C9_unchecked_fixture_indexing (item_id : String)
    (h : item_id ∉ akeys Api.items) :
    akeys Api.items = ["foo", "bar", "baz"] ∧
    Api.read_item_name item_id = RouteOutcome.keyError item_id ∧
    Api.read_item_public_data item_id = RouteOutcome.keyError item_id ∧
    (∀ e : HTTPErr,
      Api.read_item_name item_id ≠ RouteOutcome.httpError e) ∧
    (∀ e : HTTPErr,
      Api.read_item_public_data item_id ≠ RouteOutcome.httpError e) := by
  have hnone : alookup Api.items item_id = none :=
    alookup_eq_none_of_not_mem_keys item_id Api.items h
  refine ⟨rfl, ?_, ?_, ?_, ?_⟩ <;>
    simp [Api.read_item_name, Api.read_item_public_data, hnone]

/-- Witness for C9 at the concrete absent key qux. -/
theorem C9_unchecked_fixture_indexing_witness :
    Api.read_item_name "qux" = RouteOutcome.keyError "qux" :=
  (C9_unchecked_fixture_indexing "qux" (by decide)).2.1

end BasicApp
